import Mathlib

/-
Verification development for the NETCONF route-map demonstration script
(`run.py`).  The script drives a Cisco IOS-XE device through two thin
wrappers: a `netconf` class building XML filters/payloads and unwrapping
parsed `get-config` responses, and an `ssh` class issuing one CLI command.

The network I/O itself (ncclient / netmiko calls) is outside the model.
What is embedded here is everything the script computes:
  * the shape analysis performed on parsed `get-config` responses
    (`xmltodict.parse` output, a tree of Python dicts / lists / strings),
  * the argument validation in `setRouteMap`,
  * the XML filter / config payload strings built by `.format` on the
    fixed templates (on a fixed template, Python `str.format` is exactly
    concatenation of the template's literal segments with the argument
    values, which is how the payloads are written below),
  * the CLI command string built by `ssh.getRouteMapConfig`.
Each `set...` operation is modelled as returning the payload it submits
to `edit_config` (or the error raised before any network call is made);
each `get...` operation is modelled as the pure function from the parsed
response to the returned value.
-/

/-- A parsed `xmltodict` response value: a Python object that is a string,
a list, a dict (association list of string keys, ordered, keys unique in
practice), or `None`. -/
inductive PyVal where
  | str  : String → PyVal
  | list : List PyVal → PyVal
  | dict : List (String × PyVal) → PyVal
  | none : PyVal

/-- The Python exceptions that the script's pure code can raise:
`KeyError` (missing dict key, also raised explicitly by
`getRouteMapBGPCommunity`'s else branch), `TypeError` (subscripting or
membership-testing a non-container), `ValueError` (the `setRouteMap`
argument check). -/
inductive PyErr where
  | keyError   : PyErr
  | typeError  : PyErr
  | valueError : PyErr
deriving DecidableEq

/-- Python subscription `v[k]` with a string key: a dict lookup that
raises `KeyError` when the key is absent, and `TypeError` when `v` is not
a dict. -/
def PyVal.getItem : PyVal → String → Except PyErr PyVal
  | .dict kvs, k =>
    match kvs.lookup k with
    | some v => .ok v
    | Option.none => .error .keyError
  | _, _ => .error .typeError

/-- Chained Python subscription `v[k1][k2]...[kn]`, the first raised
exception propagating. -/
def getPath : PyVal → List String → Except PyErr PyVal
  | v, [] => .ok v
  | v, k :: ks =>
    match v.getItem k with
    | .ok v2 => getPath v2 ks
    | .error e => .error e

/-- The chained lookup `v[k1]...[kn]` fails with `KeyError` because some
key along the path is absent from the dict reached at that point: the
walk stays inside dicts until a key is missing. -/
def keyMissing : PyVal → List String → Bool
  | _, [] => false
  | v, k :: ks =>
    match v with
    | .dict kvs =>
      match kvs.lookup k with
      | some v2 => keyMissing v2 ks
      | Option.none => true
    | _ => false

/-- Python membership `k in v` for a string `k`: key membership for a
dict, element membership for a list (a non-string element never equals a
string), substring test for a string, `TypeError` for `None`. -/
def pyIn (k : String) : PyVal → Except PyErr Bool
  | .dict kvs => .ok (kvs.any fun p => p.1 == k)
  | .list xs => .ok (xs.any fun v =>
      match v with
      | .str s => s == k
      | _ => false)
  | .str s => .ok (decide (k.data <:+: s.data))
  | .none => .error .typeError

/-- `strContains s pat` holds when `pat` occurs as a contiguous substring
of `s` (used to state where the XML payloads carry their attributes). -/
def strContains (s pat : String) : Bool :=
  decide (pat.data <:+: s.data)

namespace netconf

/-- The default value of `getRouteMapByName`'s `routeMapName` parameter in
the source: the literal placeholder string `"routeMapName"`. -/
def getRouteMapByNameDefault : String := "routeMapName"

/-- The `<filter>` document `getRouteMapByName` submits with its
`get-config` RPC, built by `.format` on the source's template. -/
def getRouteMapByName (routeMapName : String) : String :=
  "\n\t\t\t<filter>\n\t\t\t\t<native xmlns=\"http://cisco.com/ns/yang/Cisco-IOS-XE-native\">\n\t\t\t\t\t<route-map>\n\t\t\t\t\t\t<name>"
    ++ routeMapName
    ++ "</name>\n\t\t\t\t\t</route-map>\n\t\t\t\t</native>\n\t\t\t</filter>\n\t\t"

/-- The `<config>` document `setRouteMap` builds by `.format` on its
template, `operation` being the attribute value computed from the delete
flag. -/
def setRouteMapConfig (routeMapName : String) (routeMapSequence : Nat)
    (routeMapOperation : String) (operation : String) : String :=
  "\n\t\t\t<config>\n\t\t\t\t<native xmlns=\"http://cisco.com/ns/yang/Cisco-IOS-XE-native\">\n\t\t\t\t\t<route-map operation=\""
    ++ operation
    ++ "\">\n\t\t\t\t\t\t<name>"
    ++ routeMapName
    ++ "</name>\n\t\t\t\t\t\t<route-map-without-order-seq xmlns=\"http://cisco.com/ns/yang/Cisco-IOS-XE-route-map\">\n\t\t\t\t\t\t\t<seq_no>"
    ++ toString routeMapSequence
    ++ "</seq_no>\n\t\t\t\t\t\t\t<operation>"
    ++ routeMapOperation
    ++ "</operation>\n\t\t\t\t\t\t</route-map-without-order-seq>\n\t\t\t\t\t</route-map>\n\t\t\t\t</native>\n\t\t\t</config>\n\t\t"

/-- `setRouteMap`: sets `operation` to `"remove"` when the delete flag is
set and `"merge"` otherwise, raises `ValueError` when `routeMapOperation`
is neither `"permit"` nor `"deny"` (before the `edit-config` RPC is
reached), and otherwise submits the formatted config; the result is the
payload handed to `edit_config`. -/
def setRouteMap (routeMapName : String) (routeMapSequence : Nat)
    (routeMapOperation : String) (delete : Bool) : Except PyErr String :=
  if routeMapOperation ≠ "permit" ∧ routeMapOperation ≠ "deny" then
    Except.error PyErr.valueError
  else
    Except.ok (setRouteMapConfig routeMapName routeMapSequence routeMapOperation
      (if delete then "remove" else "merge"))

/-- The key path `getRouteMapBGPCommunity` subscripts into the parsed
response. -/
def communityPath : List String :=
  ["data", "native", "route-map", "route-map-without-order-seq", "set",
   "community", "community-well-known", "community-list"]

/-- The `try` body of `getRouteMapBGPCommunity`'s result processing: wrap
a string value into a one-element list, keep a list value as is, and
`raise KeyError` on any other shape; exceptions from the subscript chain
itself propagate. -/
def getRouteMapBGPCommunityTry (netconfResponse : PyVal) : Except PyErr (List PyVal) :=
  match getPath netconfResponse communityPath with
  | .ok (.str s) => .ok [.str s]
  | .ok (.list l) => .ok l
  | .ok _ => .error .keyError
  | .error e => .error e

/-- `getRouteMapBGPCommunity`'s result processing: the `try` body with
`except KeyError` returning the empty list. -/
def getRouteMapBGPCommunity (netconfResponse : PyVal) : Except PyErr (List PyVal) :=
  match getRouteMapBGPCommunityTry netconfResponse with
  | .error .keyError => .ok []
  | r => r

/-- The `<config>` document `setRouteMapBGPCommunity` builds by `.format`
on its template and submits to `edit_config`; `operation` is `"remove"`
when the delete flag is set and `"merge"` otherwise, exactly as computed
at the top of the source function. -/
def setRouteMapBGPCommunity (routeMapName : String) (routeMapSequence : Nat)
    (BGPCommunity : String) (delete : Bool) : String :=
  "\n\t\t\t<config>\n\t\t\t\t<native xmlns=\"http://cisco.com/ns/yang/Cisco-IOS-XE-native\">\n\t\t\t\t\t<route-map>\n\t\t\t\t\t\t<name>"
    ++ routeMapName
    ++ "</name>\n\t\t\t\t\t\t<route-map-without-order-seq xmlns=\"http://cisco.com/ns/yang/Cisco-IOS-XE-route-map\">\n\t\t\t\t\t\t\t<seq_no>"
    ++ toString routeMapSequence
    ++ "</seq_no>\n\t\t\t\t\t\t\t<set>\n\t\t\t\t\t\t\t\t<community>\n\t\t\t\t\t\t\t\t\t<community-well-known>\n\t\t\t\t\t\t\t\t\t\t<community-list operation=\""
    ++ (if delete then "remove" else "merge")
    ++ "\">"
    ++ BGPCommunity
    ++ "</community-list>\n\t\t\t\t\t\t\t\t\t</community-well-known>\n\t\t\t\t\t\t\t\t</community>\n\t\t\t\t\t\t\t</set>\n\t\t\t\t\t\t</route-map-without-order-seq>\n\t\t\t\t\t</route-map>\n\t\t\t\t</native>\n\t\t\t</config>\n\t\t"

/-- `getBGPCommunityNewFormat`'s result processing on the parsed
response: `if ('native' in netconfResponse['data'])` then `True` else
`False`.  The subscript `netconfResponse['data']` is unguarded, so a
missing `data` key raises `KeyError` out of the function. -/
def getBGPCommunityNewFormat (netconfResponse : PyVal) : Except PyErr Bool :=
  match netconfResponse.getItem "data" with
  | .error e => .error e
  | .ok d =>
    match pyIn "native" d with
    | .error e => .error e
    | .ok b => if b then .ok true else .ok false

/-- The `<config>` document `setBGPCommunityNewFormat` builds by `.format`
on its template and submits to `edit_config`; `operation` is `"remove"`
when the delete flag is set and `"merge"` otherwise. -/
def setBGPCommunityNewFormat (delete : Bool) : String :=
  "\n\t\t\t<config>\n\t\t\t\t<native xmlns=\"http://cisco.com/ns/yang/Cisco-IOS-XE-native\">\n\t\t\t\t\t<ip>\n\t\t\t\t\t\t<bgp-community>\n\t\t\t\t\t\t\t<new-format operation=\""
    ++ (if delete then "remove" else "merge")
    ++ "\" />\n\t\t\t\t\t\t</bgp-community>\n\t\t\t\t\t</ip>\n\t\t\t\t</native>\n\t\t\t</config>\n\t\t"

end netconf

namespace ssh

/-- The CLI command `ssh.getRouteMapConfig` sends over the persistent
session: `.format` of the route-map name into the template
`show running-config | section route-map ...`, i.e. the literal prefix
followed by the name. -/
def getRouteMapConfig (routeMapName : String) : String :=
  "show running-config | section route-map " ++ routeMapName

end ssh

/-- A parsed response whose community-list field holds a single string,
as `xmltodict` produces when exactly one `<community-list>` element is
present. -/
def respSingle : PyVal :=
  .dict [("data", .dict [("native", .dict [("route-map", .dict
    [("route-map-without-order-seq", .dict [("seq_no", .str "10"), ("set", .dict
      [("community", .dict [("community-well-known", .dict
        [("community-list", .str "655370")])])])])])])])]

/-- A parsed response whose community-list field holds a list with a
duplicated entry, as `xmltodict` produces for repeated
`<community-list>` elements. -/
def respDup : PyVal :=
  .dict [("data", .dict [("native", .dict [("route-map", .dict
    [("route-map-without-order-seq", .dict [("seq_no", .str "10"), ("set", .dict
      [("community", .dict [("community-well-known", .dict
        [("community-list", .list [.str "655370", .str "10:10", .str "10:10"])])])])])])])])]

/-- A parsed response in which the `set` ancestor key is absent (the
route-map exists but carries no `set` action). -/
def respNoSet : PyVal :=
  .dict [("data", .dict [("native", .dict [("route-map", .dict
    [("route-map-without-order-seq", .dict [("seq_no", .str "10")])])])])]

/-- A parsed response in which the full community-list path is present
but the field holds `None`, as `xmltodict` produces for an empty
`<community-list/>` element. -/
def respNoneLeaf : PyVal :=
  .dict [("data", .dict [("native", .dict [("route-map", .dict
    [("route-map-without-order-seq", .dict [("seq_no", .str "10"), ("set", .dict
      [("community", .dict [("community-well-known", .dict
        [("community-list", PyVal.none)])])])])])])])]

set_option maxRecDepth 40000

theorem strContains_iff (s pat : String) :
    strContains s pat = true ↔ pat.data <:+: s.data := by
  simp [strContains]

theorem strContains_of_parts (s pre mid post pat : String)
    (hs : s.data = pre.data ++ (mid.data ++ post.data))
    (h : strContains mid pat = true) :
    strContains s pat = true := by
  rw [strContains_iff] at h ⊢
  rw [hs]
  exact (h.trans (List.prefix_append mid.data post.data).isInfix).trans
    (List.suffix_append pre.data (mid.data ++ post.data)).isInfix

theorem getPath_of_keyMissing : ∀ (ks : List String) (v : PyVal),
    keyMissing v ks = true → getPath v ks = .error .keyError := by
  intro ks
  induction ks with
  | nil => intro v h; simp [keyMissing] at h
  | cons k ks ih =>
    intro v h
    cases v with
    | dict kvs =>
      rw [keyMissing] at h
      rw [getPath, PyVal.getItem]
      cases hl : kvs.lookup k with
      | none => rfl
      | some v2 =>
        rw [hl] at h
        exact ih v2 h
    | str s => exact Bool.noConfusion (show false = true from h)
    | list l => exact Bool.noConfusion (show false = true from h)
    | none => exact Bool.noConfusion (show false = true from h)

theorem lookup_none_of_not_mem_keys {β : Type} (k : String) (kvs : List (String × β))
    (h : k ∉ kvs.map Prod.fst) : kvs.lookup k = Option.none := by
  induction kvs with
  | nil => rfl
  | cons p kvs ih =>
    obtain ⟨a, b⟩ := p
    simp only [List.map_cons, List.mem_cons, not_or] at h
    have hb : (k == a) = false := beq_eq_false_iff_ne.mpr h.1
    simp [List.lookup, hb, ih h.2]

/-- Claim C1: for every parsed get-config response in which the
community-list field at
data/native/route-map/route-map-without-order-seq/set/community/community-well-known/community-list
is a single string `s`, `getRouteMapBGPCommunity` returns the one-element
list containing exactly that string. -/
theorem netconf.getRouteMapBGPCommunity_single_string (resp : PyVal) (s : String)
    (h : getPath resp netconf.communityPath = .ok (.str s)) :
    netconf.getRouteMapBGPCommunity resp = .ok [.str s] := by
  unfold netconf.getRouteMapBGPCommunity netconf.getRouteMapBGPCommunityTry
  rw [h]

theorem netconf.getRouteMapBGPCommunity_single_string_example :
    netconf.getRouteMapBGPCommunity respSingle = .ok [.str "655370"] :=
  netconf.getRouteMapBGPCommunity_single_string respSingle "655370" rfl

/-- Claim C2: for every parsed get-config response in which the
community-list field is already a list, `getRouteMapBGPCommunity` returns
that list unchanged: same elements, same order, duplicates preserved. -/
theorem netconf.getRouteMapBGPCommunity_list_unchanged (resp : PyVal) (l : List PyVal)
    (h : getPath resp netconf.communityPath = .ok (.list l)) :
    netconf.getRouteMapBGPCommunity resp = .ok l := by
  unfold netconf.getRouteMapBGPCommunity netconf.getRouteMapBGPCommunityTry
  rw [h]

theorem netconf.getRouteMapBGPCommunity_list_unchanged_example :
    netconf.getRouteMapBGPCommunity respDup
      = .ok [.str "655370", .str "10:10", .str "10:10"] :=
  netconf.getRouteMapBGPCommunity_list_unchanged respDup
    [.str "655370", .str "10:10", .str "10:10"] rfl

/-- Claim C3: for every parsed get-config response in which the
community-list field or any ancestor key along the path is absent (the
subscript chain reaches a dict that lacks the next key, raising
`KeyError`), `getRouteMapBGPCommunity` returns the empty list and never
fails. -/
theorem netconf.getRouteMapBGPCommunity_absent_empty (resp : PyVal)
    (h : keyMissing resp netconf.communityPath = true) :
    netconf.getRouteMapBGPCommunity resp = .ok [] := by
  have hp := getPath_of_keyMissing netconf.communityPath resp h
  unfold netconf.getRouteMapBGPCommunity netconf.getRouteMapBGPCommunityTry
  rw [hp]

theorem netconf.getRouteMapBGPCommunity_absent_empty_example :
    netconf.getRouteMapBGPCommunity respNoSet = .ok [] :=
  netconf.getRouteMapBGPCommunity_absent_empty respNoSet rfl

/-- Claim C4: for every call to `setRouteMap` with a `routeMapOperation`
that is neither `"permit"` nor `"deny"`, and for every value of the
delete flag, the call fails with `ValueError` before any network call is
attempted (an `Except.ok` result is the payload reaching `edit_config`,
so an `Except.error` result means the RPC was never reached); for
`"permit"` or `"deny"` no error is raised. -/
theorem netconf.setRouteMap_operation_validation (routeMapName : String)
    (routeMapSequence : Nat) (routeMapOperation : String) (delete : Bool) :
    (routeMapOperation ≠ "permit" ∧ routeMapOperation ≠ "deny" →
      netconf.setRouteMap routeMapName routeMapSequence routeMapOperation delete
        = .error .valueError)
  ∧ (routeMapOperation = "permit" ∨ routeMapOperation = "deny" →
      ∀ e, netconf.setRouteMap routeMapName routeMapSequence routeMapOperation delete
        ≠ .error e) := by
  constructor
  · intro h
    unfold netconf.setRouteMap
    rw [if_pos h]
  · intro h e
    have hcond : ¬(routeMapOperation ≠ "permit" ∧ routeMapOperation ≠ "deny") := by
      rcases h with h | h <;> simp [h]
    unfold netconf.setRouteMap
    rw [if_neg hcond]
    simp

theorem netconf.setRouteMap_operation_validation_example :
    netconf.setRouteMap "TEST_REPLICATION_BUG_NETCONF" 10 "allow" false
      = .error .valueError
  ∧ netconf.setRouteMap "TEST_REPLICATION_BUG_NETCONF" 10 "permit" true
      ≠ .error .valueError :=
  ⟨(netconf.setRouteMap_operation_validation "TEST_REPLICATION_BUG_NETCONF" 10
      "allow" false).1 (by decide),
   (netconf.setRouteMap_operation_validation "TEST_REPLICATION_BUG_NETCONF" 10
      "permit" true).2 (Or.inl rfl) PyErr.valueError⟩

/-- Claim C5: for every edit operation (`setRouteMap`,
`setRouteMapBGPCommunity`, `setBGPCommunityNewFormat`) and every argument
combination, the XML edit payload carries `operation="remove"` on the
edited node (`route-map`, `community-list`, `new-format` respectively)
when the delete flag is true, and `operation="merge"` when it is
false. -/
theorem netconf.edit_payload_operation_attr (routeMapName : String)
    (routeMapSequence : Nat) (routeMapOperation BGPCommunity : String) (delete : Bool) :
    (∀ cfg, netconf.setRouteMap routeMapName routeMapSequence routeMapOperation delete
        = .ok cfg →
      strContains cfg (if delete then "<route-map operation=\"remove\">"
        else "<route-map operation=\"merge\">") = true)
  ∧ strContains
      (netconf.setRouteMapBGPCommunity routeMapName routeMapSequence BGPCommunity delete)
      (if delete then "<community-list operation=\"remove\">"
        else "<community-list operation=\"merge\">") = true
  ∧ strContains (netconf.setBGPCommunityNewFormat delete)
      (if delete then "<new-format operation=\"remove\" />"
        else "<new-format operation=\"merge\" />") = true := by
  refine ⟨?_, ?_, ?_⟩
  · intro cfg h
    unfold netconf.setRouteMap at h
    split at h
    · exact Except.noConfusion h
    · rw [Except.ok.injEq] at h
      subst h
      cases delete
      · exact strContains_of_parts _ ""
          ("\n\t\t\t<config>\n\t\t\t\t<native xmlns=\"http://cisco.com/ns/yang/Cisco-IOS-XE-native\">\n\t\t\t\t\t<route-map operation=\""
            ++ "merge" ++ "\">\n\t\t\t\t\t\t<name>")
          (routeMapName
            ++ "</name>\n\t\t\t\t\t\t<route-map-without-order-seq xmlns=\"http://cisco.com/ns/yang/Cisco-IOS-XE-route-map\">\n\t\t\t\t\t\t\t<seq_no>"
            ++ toString routeMapSequence
            ++ "</seq_no>\n\t\t\t\t\t\t\t<operation>"
            ++ routeMapOperation
            ++ "</operation>\n\t\t\t\t\t\t</route-map-without-order-seq>\n\t\t\t\t\t</route-map>\n\t\t\t\t</native>\n\t\t\t</config>\n\t\t") _
          (by simp [netconf.setRouteMapConfig, String.data_append, List.append_assoc])
          (by decide)
      · exact strContains_of_parts _ ""
          ("\n\t\t\t<config>\n\t\t\t\t<native xmlns=\"http://cisco.com/ns/yang/Cisco-IOS-XE-native\">\n\t\t\t\t\t<route-map operation=\""
            ++ "remove" ++ "\">\n\t\t\t\t\t\t<name>")
          (routeMapName
            ++ "</name>\n\t\t\t\t\t\t<route-map-without-order-seq xmlns=\"http://cisco.com/ns/yang/Cisco-IOS-XE-route-map\">\n\t\t\t\t\t\t\t<seq_no>"
            ++ toString routeMapSequence
            ++ "</seq_no>\n\t\t\t\t\t\t\t<operation>"
            ++ routeMapOperation
            ++ "</operation>\n\t\t\t\t\t\t</route-map-without-order-seq>\n\t\t\t\t\t</route-map>\n\t\t\t\t</native>\n\t\t\t</config>\n\t\t") _
          (by simp [netconf.setRouteMapConfig, String.data_append, List.append_assoc])
          (by decide)
  · cases delete
    · exact strContains_of_parts _
        ("\n\t\t\t<config>\n\t\t\t\t<native xmlns=\"http://cisco.com/ns/yang/Cisco-IOS-XE-native\">\n\t\t\t\t\t<route-map>\n\t\t\t\t\t\t<name>"
          ++ routeMapName
          ++ "</name>\n\t\t\t\t\t\t<route-map-without-order-seq xmlns=\"http://cisco.com/ns/yang/Cisco-IOS-XE-route-map\">\n\t\t\t\t\t\t\t<seq_no>"
          ++ toString routeMapSequence)
        ("</seq_no>\n\t\t\t\t\t\t\t<set>\n\t\t\t\t\t\t\t\t<community>\n\t\t\t\t\t\t\t\t\t<community-well-known>\n\t\t\t\t\t\t\t\t\t\t<community-list operation=\""
          ++ "merge" ++ "\">")
        (BGPCommunity
          ++ "</community-list>\n\t\t\t\t\t\t\t\t\t</community-well-known>\n\t\t\t\t\t\t\t\t</community>\n\t\t\t\t\t\t\t</set>\n\t\t\t\t\t\t</route-map-without-order-seq>\n\t\t\t\t\t</route-map>\n\t\t\t\t</native>\n\t\t\t</config>\n\t\t") _
        (by simp [netconf.setRouteMapBGPCommunity, String.data_append, List.append_assoc])
        (by decide)
    · exact strContains_of_parts _
        ("\n\t\t\t<config>\n\t\t\t\t<native xmlns=\"http://cisco.com/ns/yang/Cisco-IOS-XE-native\">\n\t\t\t\t\t<route-map>\n\t\t\t\t\t\t<name>"
          ++ routeMapName
          ++ "</name>\n\t\t\t\t\t\t<route-map-without-order-seq xmlns=\"http://cisco.com/ns/yang/Cisco-IOS-XE-route-map\">\n\t\t\t\t\t\t\t<seq_no>"
          ++ toString routeMapSequence)
        ("</seq_no>\n\t\t\t\t\t\t\t<set>\n\t\t\t\t\t\t\t\t<community>\n\t\t\t\t\t\t\t\t\t<community-well-known>\n\t\t\t\t\t\t\t\t\t\t<community-list operation=\""
          ++ "remove" ++ "\">")
        (BGPCommunity
          ++ "</community-list>\n\t\t\t\t\t\t\t\t\t</community-well-known>\n\t\t\t\t\t\t\t\t</community>\n\t\t\t\t\t\t\t</set>\n\t\t\t\t\t\t</route-map-without-order-seq>\n\t\t\t\t\t</route-map>\n\t\t\t\t</native>\n\t\t\t</config>\n\t\t") _
        (by simp [netconf.setRouteMapBGPCommunity, String.data_append, List.append_assoc])
        (by decide)
  · cases delete
    · decide
    · decide

theorem netconf.edit_payload_operation_attr_example :
    strContains
      (netconf.setRouteMapConfig "TEST_REPLICATION_BUG_NETCONF" 10 "permit" "remove")
      "<route-map operation=\"remove\">" = true :=
  (netconf.edit_payload_operation_attr "TEST_REPLICATION_BUG_NETCONF" 10 "permit"
    "1:1" true).1
    (netconf.setRouteMapConfig "TEST_REPLICATION_BUG_NETCONF" 10 "permit" "remove") rfl

/-- Claim C6: for every parsed get-config response whose `data` entry is a
mapping, `getBGPCommunityNewFormat` returns `True` exactly when the
top-level key `native` is present in that mapping and `False` exactly
when it is absent: it never inspects the `bgp-community` or `new-format`
elements below, so it reports `True` whenever any configuration at all
exists under `native`. -/
theorem netconf.getBGPCommunityNewFormat_native_presence (resp : PyVal)
    (kvs : List (String × PyVal))
    (h : resp.getItem "data" = .ok (.dict kvs)) :
    (netconf.getBGPCommunityNewFormat resp = .ok true ↔ "native" ∈ kvs.map Prod.fst)
  ∧ (netconf.getBGPCommunityNewFormat resp = .ok false ↔ "native" ∉ kvs.map Prod.fst) := by
  have hmem : ((kvs.any fun p => p.1 == "native") = true)
      ↔ "native" ∈ kvs.map Prod.fst := by
    rw [List.any_eq_true]
    constructor
    · rintro ⟨p, hp, he⟩
      exact List.mem_map.mpr ⟨p, hp, beq_iff_eq.mp he⟩
    · intro hx
      obtain ⟨p, hp, he⟩ := List.mem_map.mp hx
      exact ⟨p, hp, beq_iff_eq.mpr he⟩
  rw [netconf.getBGPCommunityNewFormat, h]
  cases hany : kvs.any fun p => p.1 == "native" with
  | true =>
    have hm := hmem.mp hany
    simp [pyIn, hany, hm]
  | false =>
    have hm : ¬ "native" ∈ kvs.map Prod.fst := fun hx => by
      rw [← hmem, hany] at hx
      exact Bool.noConfusion hx
    simp [pyIn, hany, hm]

theorem netconf.getBGPCommunityNewFormat_native_presence_example :
    (netconf.getBGPCommunityNewFormat
        (.dict [("data", .dict [("native", .dict [])])]) = .ok true
      ↔ "native" ∈ ([("native", PyVal.dict [])].map Prod.fst))
  ∧ (netconf.getBGPCommunityNewFormat
        (.dict [("data", .dict [("native", .dict [])])]) = .ok false
      ↔ "native" ∉ ([("native", PyVal.dict [])].map Prod.fst)) :=
  netconf.getBGPCommunityNewFormat_native_presence
    (.dict [("data", .dict [("native", .dict [])])]) [("native", PyVal.dict [])] rfl

/-- Claim C7: for every `routeMapName`, the CLI wrapper's
`getRouteMapConfig` issues exactly the command
`show running-config | section route-map ` followed by the name; with the
empty default name the command ends after the trailing space, scoping it
to no particular route-map. -/
theorem ssh.getRouteMapConfig_command :
    (∀ routeMapName, ssh.getRouteMapConfig routeMapName
        = "show running-config | section route-map " ++ routeMapName)
  ∧ ssh.getRouteMapConfig "" = "show running-config | section route-map " :=
  ⟨fun _ => rfl, rfl⟩

/-- Claim C8: when `getRouteMapByName` is called without a `routeMapName`
argument, its default is the literal placeholder `"routeMapName"`, so the
NETCONF filter it submits is scoped to that placeholder name rather than
being an unfiltered all-route-maps query. -/
theorem netconf.getRouteMapByName_default_placeholder :
    strContains (netconf.getRouteMapByName netconf.getRouteMapByNameDefault)
      "<name>routeMapName</name>" = true
  ∧ netconf.getRouteMapByNameDefault = "routeMapName" :=
  ⟨by decide, rfl⟩

/-- Claim C9: for every parsed get-config response in which the full
community-list path is present but the value is neither a string nor a
list (a nested mapping or `None`), `getRouteMapBGPCommunity` returns the
empty list: the source's else branch raises `KeyError`, which the
surrounding handler catches, so the third shape is treated like
absence. -/
theorem netconf.getRouteMapBGPCommunity_other_shape_empty (resp v : PyVal)
    (h : getPath resp netconf.communityPath = .ok v)
    (hs : ∀ s, v ≠ PyVal.str s) (hl : ∀ l, v ≠ PyVal.list l) :
    netconf.getRouteMapBGPCommunity resp = .ok [] := by
  unfold netconf.getRouteMapBGPCommunity netconf.getRouteMapBGPCommunityTry
  rw [h]
  cases v with
  | str s => exact absurd rfl (hs s)
  | list l => exact absurd rfl (hl l)
  | dict kvs => rfl
  | none => rfl

theorem netconf.getRouteMapBGPCommunity_other_shape_empty_example :
    netconf.getRouteMapBGPCommunity respNoneLeaf = .ok [] :=
  netconf.getRouteMapBGPCommunity_other_shape_empty respNoneLeaf PyVal.none rfl
    (fun _ h => nomatch h) (fun _ h => nomatch h)

/-- Claim C10: for every parsed get-config response that is a mapping
lacking the top-level `data` key, `getBGPCommunityNewFormat` fails with
an uncaught `KeyError` rather than returning `False`: the membership test
subscripts `netconfResponse['data']` unguarded, with no handler around
it. -/
theorem netconf.getBGPCommunityNewFormat_missing_data_raises
    (kvs : List (String × PyVal)) (h : "data" ∉ kvs.map Prod.fst) :
    netconf.getBGPCommunityNewFormat (.dict kvs) = .error .keyError := by
  have hl := lookup_none_of_not_mem_keys "data" kvs h
  rw [netconf.getBGPCommunityNewFormat, PyVal.getItem, hl]

theorem netconf.getBGPCommunityNewFormat_missing_data_raises_example :
    netconf.getBGPCommunityNewFormat (.dict []) = .error .keyError :=
  netconf.getBGPCommunityNewFormat_missing_data_raises [] (by simp)
